import Mathlib

/-!
Verification of the Hospital-Finder search pipeline.

Shallow embedding of the search orchestration code of the Hospital-Finder
repository: the geocode step, the radius estimation from a bounding box, the
expanding-radius retry ladder, the result normalizer, and the distance ranking,
as implemented in `src/app/page.tsx` (the `handleSearch` variant with the
three-rung ladder) and `src/app/api/places/route.ts`
(`getRadiusFromBoundingBox`).  JavaScript numbers are modelled as rationals
(every coordinate arriving from JSON is a finite decimal), network effects are
modelled by an explicit oracle giving the response of each attempt, and the
React state writes (`setPlaces` / `setError`) are modelled as explicit state
updates.
-/

namespace HospitalFinder

/-- Canonical facility record: the `Place` type of `src/unnamed/part_000`.
The facilities pushed by the normalizer always carry a tag mapping, because
elements without tags are skipped, so `tags` is stored directly. -/
structure Place where
  id : Int
  lat : ℚ
  lon : ℚ
  tags : List (String × String)
  deriving DecidableEq, Repr

/-- Centroid of a non-point geometry: the `center` field of an Overpass
element. -/
structure OverpassCenter where
  lat : ℚ
  lon : ℚ
  deriving DecidableEq, Repr

/-- Raw element returned by the spatial data source: `OverpassElement` in
`src/app/page.tsx`.  Direct coordinates, the centroid and the tag mapping are
all optional fields. -/
structure OverpassElement where
  id : Int
  lat : Option ℚ
  lon : Option ℚ
  center : Option OverpassCenter
  tags : Option (List (String × String))
  deriving DecidableEq, Repr

/-- Error kinds of the pipeline (section 7 of the design): a place name that
resolves to zero candidates, an upstream non-success HTTP status, and an
elapsed client-side deadline. -/
inductive Err where
  | notFound
  | serviceError (status : Nat)
  | timeout
  deriving DecidableEq, Repr

/-- Geocode result used by `handleSearch`: the coordinates of candidate 0 and
its optional `boundingbox` array (south, north, west, east as numeric
strings, modelled as rationals). -/
structure Geo where
  lat : ℚ
  lon : ℚ
  boundingbox : Option (List ℚ)
  deriving DecidableEq, Repr

/-- Outcome of one `handleSearch` invocation.  `success` carries the ranked
facility list delivered through `setPlaces`; `exhausted` is the normal
completion with zero results (the code sets the distinct no-results message
and an empty list without throwing); `failed` is the catch branch. -/
inductive Outcome where
  | success (facilities : List Place)
  | exhausted
  | failed (e : Err)
  deriving DecidableEq, Repr

/-- Radius estimator of `src/app/page.tsx` (`calculateRadius`): absent or
malformed bounding box gives the 15000 default, otherwise the area
`|north - south| * |east - west|` in square degrees is mapped through this
variant of the tier table. -/
def calculateRadius : Option (List ℚ) → Nat
  | some [south, north, west, east] =>
    let area := |north - south| * |east - west|
    if area > 1 then 50000
    else if area > 1/2 then 35000
    else if area > 1/10 then 25000
    else if area > 1/100 then 15000
    else 10000
  | _ => 15000

/-- Bounding box consumed by the radius estimator of
`src/app/api/places/route.ts`: south, north, west, east in degrees. -/
structure BBox where
  south : ℚ
  north : ℚ
  west : ℚ
  east : ℚ
  deriving DecidableEq, Repr

/-- Approximate area of a bounding box in square degrees, exactly as computed
by `getRadiusFromBoundingBox`. -/
def bboxArea (b : BBox) : ℚ :=
  |b.north - b.south| * |b.east - b.west|

/-- Radius estimator of `src/app/api/places/route.ts`
(`getRadiusFromBoundingBox`): the canonical tier table
`area>1.0 to 50000; >0.5 to 30000; >0.1 to 20000; >0.01 to 10000;
else 5000`. -/
def getRadiusFromBoundingBox (b : BBox) : Nat :=
  let area := bboxArea b
  if area > 1 then 50000
  else if area > 1/2 then 30000
  else if area > 1/10 then 20000
  else if area > 1/100 then 10000
  else 5000

/-- Modelled from the spec: the ordered tier table of section 4.2 written
directly from the spec words, used to compare the source estimator against
the documented table. -/
def specRadiusTier (area : ℚ) : Nat :=
  if area > 1 then 50000
  else if area > 1/2 then 30000
  else if area > 1/10 then 20000
  else if area > 1/100 then 10000
  else 5000

/-- C6: for every bounding box, the estimator computes the area
`|north - south| * |east - west|` in square degrees and maps it through the
ordered tier table `>1.0 to 50000; >0.5 to 30000; >0.1 to 20000;
>0.01 to 10000; else 5000`, and is consequently monotonically non-decreasing
in area. -/
theorem radius_matches_spec_tiers_and_monotone (b1 b2 : BBox)
    (h : bboxArea b1 ≤ bboxArea b2) :
    getRadiusFromBoundingBox b1 = specRadiusTier (bboxArea b1) ∧
    getRadiusFromBoundingBox b1 ≤ getRadiusFromBoundingBox b2 := by
  refine ⟨rfl, ?_⟩
  simp only [getRadiusFromBoundingBox]
  split_ifs <;> linarith

theorem radius_matches_spec_tiers_and_monotone_witness :
    bboxArea ⟨0, 1/10, 0, 1/10⟩ ≤ bboxArea ⟨0, 2, 0, 2⟩ ∧
    (getRadiusFromBoundingBox ⟨0, 1/10, 0, 1/10⟩ =
        specRadiusTier (bboxArea ⟨0, 1/10, 0, 1/10⟩) ∧
      getRadiusFromBoundingBox ⟨0, 1/10, 0, 1/10⟩ ≤
        getRadiusFromBoundingBox ⟨0, 2, 0, 2⟩) :=
  ⟨by norm_num [bboxArea],
   radius_matches_spec_tiers_and_monotone _ _ (by norm_num [bboxArea])⟩

/-- Coordinate resolution of `fetchPlaces` in `src/app/page.tsx`:
`element.lat ?? element.center?.lat` (nullish coalescing, so a direct
latitude of 0 is used, not replaced by the centroid). -/
def resolvedLat (el : OverpassElement) : Option ℚ :=
  match el.lat with
  | some v => some v
  | none => el.center.map (fun c => c.lat)

/-- Coordinate resolution of `fetchPlaces`:
`element.lon ?? element.center?.lon`. -/
def resolvedLon (el : OverpassElement) : Option ℚ :=
  match el.lon with
  | some v => some v
  | none => el.center.map (fun c => c.lon)

/-- Per-element normalization of the `fetchPlaces` loop in
`src/app/page.tsx`: the element is skipped when
`!elementLat || !elementLon || !element.tags`, i.e. when a resolved
coordinate is absent or equals 0 (JavaScript truthiness) or the tag mapping
is absent; otherwise a facility is pushed. -/
def normElem (el : OverpassElement) : Option Place :=
  match resolvedLat el, resolvedLon el, el.tags with
  | some la, some lo, some tg =>
    if la = 0 ∨ lo = 0 then none else some ⟨el.id, la, lo, tg⟩
  | _, _, _ => none

/-- Result normalizer: the `for (const element of data.elements)` loop of
`fetchPlaces`, pushing one facility per element that passes the checks. -/
def normalize (raw : List OverpassElement) : List Place :=
  raw.filterMap normElem

/-- C7 counterexample: a raw element with no direct coordinates, a centroid
at (10, 20) and no tag mapping is dropped by `normalize`, although the claim
asserts it is emitted with the centroid coordinates. -/
theorem centroid_without_tags_dropped_cex :
    (⟨7, none, none, some ⟨10, 20⟩, none⟩ : OverpassElement).center =
      some ⟨10, 20⟩ ∧
    normalize [⟨7, none, none, some ⟨10, 20⟩, none⟩] = [] := by
  decide

/-- C7 amended: a raw element with no direct coordinates, a centroid with
nonzero (truthy) coordinates and a tag mapping present is emitted with the
centroid coordinates; an element with neither direct coordinates nor a
centroid is dropped. -/
theorem centroid_fallback_requires_tags (el el2 : OverpassElement)
    (c : OverpassCenter) (tg : List (String × String))
    (hlat : el.lat = none) (hlon : el.lon = none) (hc : el.center = some c)
    (ht : el.tags = some tg) (hc1 : c.lat ≠ 0) (hc2 : c.lon ≠ 0)
    (h2lat : el2.lat = none) (h2lon : el2.lon = none)
    (h2c : el2.center = none) :
    normElem el = some ⟨el.id, c.lat, c.lon, tg⟩ ∧ normElem el2 = none := by
  constructor
  · simp [normElem, resolvedLat, resolvedLon, hlat, hlon, hc, ht, hc1, hc2]
  · simp [normElem, resolvedLat, resolvedLon, h2lat, h2lon, h2c]

theorem centroid_fallback_requires_tags_witness :
    normElem ⟨3, none, none, some ⟨10, 20⟩, some []⟩ =
      some ⟨3, 10, 20, []⟩ ∧
    normElem ⟨4, none, none, none, some []⟩ = none :=
  centroid_fallback_requires_tags ⟨3, none, none, some ⟨10, 20⟩, some []⟩
    ⟨4, none, none, none, some []⟩ ⟨10, 20⟩ [] rfl rfl rfl rfl
    (by decide) (by decide) rfl rfl rfl

/-- C8 counterexample: two passing raw elements share id 9, yet `normalize`
emits two facilities with id 9, although the claim asserts exactly one is
emitted. -/
theorem duplicate_id_emitted_twice_cex :
    normalize [⟨9, some 1, some 2, none, some []⟩,
               ⟨9, some 3, some 4, none, some []⟩] =
      [⟨9, 1, 2, []⟩, ⟨9, 3, 4, []⟩] ∧
    ((normalize [⟨9, some 1, some 2, none, some []⟩,
                 ⟨9, some 3, some 4, none, some []⟩]).filter
        (fun p => p.id == 9)).length = 2 := by
  decide

/-- C8 amended: `normalize` performs no deduplication: for every id, the
number of emitted facilities with that id equals the number of raw
occurrences that pass the coordinate and tag checks, so an id appearing more
than once among passing elements is emitted that many times. -/
theorem normalize_no_dedup (raw : List OverpassElement) (i : Int) :
    ((normalize raw).filter (fun p => p.id == i)).length =
      (raw.filter (fun el => (normElem el).any (fun p => p.id == i))).length := by
  induction raw with
  | nil => rfl
  | cons el rest ih =>
    cases h : normElem el with
    | none =>
      simp only [normalize, List.filterMap_cons, h, List.filter_cons,
        Option.any_none, Bool.false_eq_true, if_false]
      exact ih
    | some p =>
      simp only [normalize] at ih
      cases hpi : (p.id == i) <;>
        simp [normalize, List.filterMap_cons, h, List.filter_cons, hpi, ih]

/-- C10: normalization drops every raw element whose resolved latitude or
longitude equals exactly 0, because presence is tested by JavaScript
truthiness: no emitted facility has lat = 0 or lon = 0. -/
theorem normalize_never_emits_zero_coordinate (raw : List OverpassElement)
    (p : Place) (hp : p ∈ normalize raw) : p.lat ≠ 0 ∧ p.lon ≠ 0 := by
  simp only [normalize, List.mem_filterMap] at hp
  obtain ⟨el, -, hel⟩ := hp
  unfold normElem at hel
  split at hel
  · split_ifs at hel with hcond
    push_neg at hcond
    obtain rfl := Option.some.inj hel
    exact ⟨hcond.1, hcond.2⟩
  all_goals simp at hel

theorem normalize_never_emits_zero_coordinate_witness :
    (⟨1, 3, 4, []⟩ : Place) ∈ normalize [⟨1, some 3, some 4, none, some []⟩] ∧
    ((⟨1, 3, 4, []⟩ : Place).lat ≠ 0 ∧ (⟨1, 3, 4, []⟩ : Place).lon ≠ 0) :=
  ⟨by decide,
   normalize_never_emits_zero_coordinate [⟨1, some 3, some 4, none, some []⟩]
     ⟨1, 3, 4, []⟩ (by decide)⟩

/-- Squared planar degree-space distance from the search origin.  The source
comparator is `Math.hypot(a.lat - lat, a.lon - lon) -
Math.hypot(b.lat - lat, b.lon - lon)`; since the square root is monotone on
nonnegative reals, comparing the squared distances gives exactly the same
order, and keeps the embedding inside the rationals. -/
def dist2 (olat olon : ℚ) (p : Place) : ℚ :=
  (p.lat - olat) * (p.lat - olat) + (p.lon - olon) * (p.lon - olon)

/-- Order used by the sort in `handleSearch`: facility `a` comes no later
than facility `b` when its distance from the origin is no larger. -/
def rankRel (olat olon : ℚ) (a b : Place) : Prop :=
  dist2 olat olon a ≤ dist2 olat olon b

instance rankRelDecidable (olat olon : ℚ) :
    DecidableRel (rankRel olat olon) :=
  fun a b => inferInstanceAs (Decidable (dist2 olat olon a ≤ dist2 olat olon b))

/-- Ranking of `handleSearch` step 3: `results.sort((a, b) => distA - distB)`.
JavaScript `Array.prototype.sort` is a stable sort, and the stable sort by a
total preorder is unique, so the stable `insertionSort` is its exact
model. -/
def rank (olat olon : ℚ) (ps : List Place) : List Place :=
  ps.insertionSort (rankRel olat olon)

theorem filter_dist_orderedInsert (olat olon q : ℚ) (x : Place)
    (l : List Place) :
    (l.orderedInsert (rankRel olat olon) x).filter
        (fun p => decide (dist2 olat olon p = q)) =
      if dist2 olat olon x = q then
        x :: l.filter (fun p => decide (dist2 olat olon p = q))
      else l.filter (fun p => decide (dist2 olat olon p = q)) := by
  induction l with
  | nil =>
    simp only [List.orderedInsert, List.filter]
    split_ifs with h <;> simp [h]
  | cons y ys ih =>
    by_cases hxy : rankRel olat olon x y
    · simp only [List.orderedInsert, if_pos hxy, List.filter_cons]
      split_ifs with h1 h2 h2 <;> simp_all
    · have hyx : dist2 olat olon y < dist2 olat olon x := by
        simpa [rankRel, not_le] using hxy
      simp only [List.orderedInsert, if_neg hxy, List.filter_cons, ih]
      split_ifs with h1 h2 h2 <;> simp_all

theorem filter_dist_insertionSort (olat olon q : ℚ) (l : List Place) :
    (l.insertionSort (rankRel olat olon)).filter
        (fun p => decide (dist2 olat olon p = q)) =
      l.filter (fun p => decide (dist2 olat olon p = q)) := by
  induction l with
  | nil => rfl
  | cons x xs ih =>
    simp only [List.insertionSort]
    rw [filter_dist_orderedInsert]
    split_ifs with h <;> simp [List.filter_cons, h, ih]

/-- C9 counterexample: two facilities at equal distance from the origin, the
one with the larger id first.  `rank` keeps them in input order (the source
comparator `distA - distB` never consults ids and the sort is stable), so the
output is not ordered by ascending id as the claim asserts. -/
theorem rank_tie_keeps_input_order_cex :
    dist2 0 0 ⟨5, 1, 0, []⟩ = dist2 0 0 ⟨2, 0, 1, []⟩ ∧ (2 : Int) < 5 ∧
    rank 0 0 [⟨5, 1, 0, []⟩, ⟨2, 0, 1, []⟩] =
      [⟨5, 1, 0, []⟩, ⟨2, 0, 1, []⟩] ∧
    rank 0 0 [⟨5, 1, 0, []⟩, ⟨2, 0, 1, []⟩] ≠
      [⟨2, 0, 1, []⟩, ⟨5, 1, 0, []⟩] := by
  have hd : rankRel 0 0 ⟨5, 1, 0, []⟩ ⟨2, 0, 1, []⟩ := by
    norm_num [rankRel, dist2]
  have hrank : rank 0 0 [⟨5, 1, 0, []⟩, ⟨2, 0, 1, []⟩] =
      [⟨5, 1, 0, []⟩, ⟨2, 0, 1, []⟩] := by
    simp [rank, List.insertionSort, List.orderedInsert, if_pos hd]
  refine ⟨by norm_num [dist2], by norm_num, hrank, ?_⟩
  rw [hrank]
  intro hcontra
  injection hcontra with h1 _
  injection h1 with hid _ _ _
  exact absurd hid (by decide)

/-- C9 amended: `rank` orders facilities ascending by planar Euclidean
degree-space distance from the origin (the output is a permutation of the
input, pairwise non-decreasing in distance, so facilities at distances
3, 1, 2 come out in the order 1, 2, 3), and resolves equal-distance ties by
keeping the input order (the sort is stable), not by ascending id; as a pure
function it is deterministic. -/
theorem rank_sorted_perm_stable (olat olon q : ℚ) (ps : List Place) :
    (rank olat olon ps).Sorted (rankRel olat olon) ∧
    (rank olat olon ps).Perm ps ∧
    (rank olat olon ps).filter (fun p => decide (dist2 olat olon p = q)) =
      ps.filter (fun p => decide (dist2 olat olon p = q)) := by
  refine ⟨?_, List.perm_insertionSort _ _, filter_dist_insertionSort olat olon q ps⟩
  haveI : IsTotal Place (rankRel olat olon) :=
    ⟨fun a b => le_total (dist2 olat olon a) (dist2 olat olon b)⟩
  haveI : IsTrans Place (rankRel olat olon) :=
    ⟨fun _ _ _ hab hbc => le_trans hab hbc⟩
  exact List.sorted_insertionSort _ _

/-- Retry loop of `handleSearch` step 2 (`for (let i = 0; i < attempts.length;
i++)`), over the list of remaining attempt indices.  `net i` is the outcome of
`fetchPlaces` on attempt `i` (the network oracle): an error models a thrown
`Timeout` or `ServiceError`, a list of elements models a successful response,
which the loop body normalizes.  The accumulator `k` counts the query attempts
made so far.  A non-empty normalized set breaks the loop; an error on a
non-final index is swallowed (`if (i === attempts.length - 1) throw`); an
error on the final index is rethrown; a loop that runs out of rungs returns
the (empty) result list. -/
def runLadder (net : Nat → Except Err (List OverpassElement)) :
    List Nat → Nat → Except Err (List Place) × Nat
  | [], k => (.ok [], k)
  | [i], k =>
    match net i with
    | .error e => (.error e, k + 1)
    | .ok es => (.ok (normalize es), k + 1)
  | i :: j :: rest, k =>
    match net i with
    | .error _ => runLadder net (j :: rest) (k + 1)
    | .ok es =>
      let pl := normalize es
      if pl.isEmpty then runLadder net (j :: rest) (k + 1) else (.ok pl, k + 1)

/-- Orchestrator `handleSearch` of `src/app/page.tsx`: geocoding failure
(non-ok response, missing or NaN coordinates) throws before any query attempt
is made; on success the attempt ladder
`[baseRadius, min(baseRadius * 2, 50000), 50000]` is run sequentially, the
final non-empty result set is sorted by distance, and an empty final set
produces the distinct no-results outcome without throwing.  The returned pair
is the delivered outcome and the number of query attempts made. -/
def handleSearch (geo : Except Err Geo)
    (net : Nat → Except Err (List OverpassElement)) : Outcome × Nat :=
  match geo with
  | .error e => (.failed e, 0)
  | .ok g =>
    let baseRadius := calculateRadius g.boundingbox
    let attempts := [baseRadius, min (baseRadius * 2) 50000, 50000]
    match runLadder net (List.range attempts.length) 0 with
    | (.error e, k) => (.failed e, k)
    | (.ok pl, k) =>
      if pl.isEmpty then (.exhausted, k)
      else (.success (rank g.lat g.lon pl), k)

theorem runLadder_step_error (net : Nat → Except Err (List OverpassElement))
    (i j : Nat) (rest : List Nat) (k : Nat) (e : Err)
    (h : net i = .error e) :
    runLadder net (i :: j :: rest) k = runLadder net (j :: rest) (k + 1) := by
  simp [runLadder, h]

theorem runLadder_step_empty (net : Nat → Except Err (List OverpassElement))
    (i j : Nat) (rest : List Nat) (k : Nat) (es : List OverpassElement)
    (h : net i = .ok es) (he : normalize es = []) :
    runLadder net (i :: j :: rest) k = runLadder net (j :: rest) (k + 1) := by
  simp [runLadder, h, he]

theorem runLadder_step_found (net : Nat → Except Err (List OverpassElement))
    (i j : Nat) (rest : List Nat) (k : Nat) (es : List OverpassElement)
    (h : net i = .ok es) (hne : normalize es ≠ []) :
    runLadder net (i :: j :: rest) k = (.ok (normalize es), k + 1) := by
  simp [runLadder, h, List.isEmpty_eq_false.mpr hne]

theorem runLadder_last_ok (net : Nat → Except Err (List OverpassElement))
    (i k : Nat) (es : List OverpassElement) (h : net i = .ok es) :
    runLadder net [i] k = (.ok (normalize es), k + 1) := by
  simp [runLadder, h]

theorem runLadder_last_error (net : Nat → Except Err (List OverpassElement))
    (i k : Nat) (e : Err) (h : net i = .error e) :
    runLadder net [i] k = (.error e, k + 1) := by
  simp [runLadder, h]

theorem handleSearch_ok (g : Geo)
    (net : Nat → Except Err (List OverpassElement)) :
    handleSearch (.ok g) net =
      match runLadder net [0, 1, 2] 0 with
      | (.error e, k) => (.failed e, k)
      | (.ok pl, k) =>
        if pl.isEmpty then (.exhausted, k)
        else (.success (rank g.lat g.lon pl), k) := rfl

/-- C1: the ladder rungs execute sequentially, smallest radius first, and
short-circuit on the first non-empty rung: when geocoding succeeds, rungs 1
and 2 normalize to empty and rung 3 normalizes to a non-empty set `ps`, the
outcome is success with exactly the facilities of `ps` (ranked, a permutation
of `ps`) and exactly 3 query attempts are made, no more. -/
theorem ladder_short_circuits_on_first_nonempty (g : Geo)
    (net : Nat → Except Err (List OverpassElement))
    (es0 es1 es2 : List OverpassElement) (ps : List Place)
    (h0 : net 0 = .ok es0) (h0e : normalize es0 = [])
    (h1 : net 1 = .ok es1) (h1e : normalize es1 = [])
    (h2 : net 2 = .ok es2) (h2p : normalize es2 = ps) (hne : ps ≠ []) :
    handleSearch (.ok g) net = (.success (rank g.lat g.lon ps), 3) ∧
    (rank g.lat g.lon ps).Perm ps := by
  refine ⟨?_, List.perm_insertionSort _ _⟩
  rw [handleSearch_ok, runLadder_step_empty net 0 1 [2] 0 es0 h0 h0e,
    runLadder_step_empty net 1 2 [] 1 es1 h1 h1e,
    runLadder_last_ok net 2 2 es2 h2, h2p]
  simp [List.isEmpty_eq_false.mpr hne]

theorem ladder_short_circuits_on_first_nonempty_witness :
    handleSearch (.ok ⟨48, 2, none⟩)
        (fun n => if n = 2 then .ok [⟨1, some 3, some 4, none, some []⟩]
          else .ok []) =
      (.success (rank 48 2 [⟨1, 3, 4, []⟩]), 3) ∧
    (rank 48 2 [⟨1, 3, 4, []⟩]).Perm [⟨1, 3, 4, []⟩] :=
  ladder_short_circuits_on_first_nonempty ⟨48, 2, none⟩ _ [] []
    [⟨1, some 3, some 4, none, some []⟩] [⟨1, 3, 4, []⟩]
    rfl rfl rfl rfl rfl (by decide) (by decide)

/-- C3: a `Timeout` or `ServiceError` on a rung that is not the last is
swallowed and the ladder advances (here rung 1 errors and rung 2 is empty,
yet rung 3 is still attempted, so 3 attempts are made); the same failure on
the last rung terminates the search with outcome failed carrying that
error. -/
theorem rung_error_swallowed_until_last (g : Geo)
    (net : Nat → Except Err (List OverpassElement))
    (e0 e2 : Err) (es1 : List OverpassElement)
    (h0 : net 0 = .error e0)
    (h1 : net 1 = .ok es1) (h1e : normalize es1 = [])
    (h2 : net 2 = .error e2) :
    handleSearch (.ok g) net = (.failed e2, 3) := by
  rw [handleSearch_ok, runLadder_step_error net 0 1 [2] 0 e0 h0,
    runLadder_step_empty net 1 2 [] 1 es1 h1 h1e,
    runLadder_last_error net 2 2 e2 h2]

theorem rung_error_swallowed_until_last_witness :
    handleSearch (.ok ⟨48, 2, none⟩)
        (fun n => if n = 0 then .error .timeout
          else if n = 1 then .ok []
          else .error (.serviceError 504)) =
      (.failed (.serviceError 504), 3) :=
  rung_error_swallowed_until_last ⟨48, 2, none⟩ _ .timeout
    (.serviceError 504) [] rfl rfl rfl rfl

/-- C4: when geocoding fails with `NotFound` (the geocoding service returns
zero candidates, so `handleSearch` throws before its fetch loop), zero query
attempts are made and the outcome is failed with `NotFound`. -/
theorem geocode_not_found_zero_attempts
    (net : Nat → Except Err (List OverpassElement)) :
    handleSearch (.error .notFound) net = (.failed .notFound, 0) := rfl

/-- C5: when every ladder rung succeeds with zero results, the search
completes with the exhausted outcome after all 3 attempts — a success-shaped
completion distinct from every failed outcome; no error is raised for zero
matches. -/
theorem all_rungs_empty_gives_exhausted (g : Geo)
    (net : Nat → Except Err (List OverpassElement))
    (es0 es1 es2 : List OverpassElement)
    (h0 : net 0 = .ok es0) (h0e : normalize es0 = [])
    (h1 : net 1 = .ok es1) (h1e : normalize es1 = [])
    (h2 : net 2 = .ok es2) (h2e : normalize es2 = []) :
    handleSearch (.ok g) net = (.exhausted, 3) ∧
    ∀ e, (handleSearch (.ok g) net).1 ≠ .failed e := by
  have hmain : handleSearch (.ok g) net = (.exhausted, 3) := by
    rw [handleSearch_ok, runLadder_step_empty net 0 1 [2] 0 es0 h0 h0e,
      runLadder_step_empty net 1 2 [] 1 es1 h1 h1e,
      runLadder_last_ok net 2 2 es2 h2, h2e]
    rfl
  exact ⟨hmain, fun e => by rw [hmain]; exact fun h => nomatch h⟩

theorem all_rungs_empty_gives_exhausted_witness :
    handleSearch (.ok ⟨48, 2, none⟩) (fun _ => .ok []) = (.exhausted, 3) ∧
    ∀ e, (handleSearch (.ok ⟨48, 2, none⟩) (fun _ => .ok [])).1 ≠ .failed e :=
  all_rungs_empty_gives_exhausted ⟨48, 2, none⟩ _ [] [] []
    rfl rfl rfl rfl rfl rfl

/-- Failure banner distinguishing the two non-success messages the page
stores in its `error` state: the no-results message of the exhausted path and
the thrown error message of the catch path.  The source stores human-readable
strings; the banner records which message is shown (string formatting is
presentation). -/
inductive Banner where
  | noResults
  | failure (e : Err)
  deriving DecidableEq, Repr

/-- React state of the page component that `handleSearch` writes through
`setPlaces` and `setError`. -/
structure PageState where
  places : List Place
  banner : Option Banner
  deriving DecidableEq, Repr

/-- State writes at the start of a `handleSearch` invocation:
`setPlaces([]); setError(null)` — unconditional, with no reference to any
other in-flight invocation. -/
def startSearch (_ : PageState) : PageState :=
  ⟨[], none⟩

/-- State writes at the end of a `handleSearch` invocation: the success path
runs `setPlaces(results)`; the exhausted path runs `setError(noResultsMsg)`
and `setPlaces([])`; the catch path runs `setError(message)` and
`setPlaces([])`.  All three are unconditional: the source checks no
cancellation token, generation counter or session identity before writing,
and the `AbortController` created in `fetchPlaces` is never passed to `fetch`
as a signal, so no pending work of a superseded invocation is ever
aborted. -/
def deliverOutcome (s : PageState) : Outcome → PageState
  | .success fs => { s with places := fs }
  | .exhausted => { s with places := [], banner := some .noResults }
  | .failed e => { s with places := [], banner := some (.failure e) }

/-- C2 refutation at the concrete scenario of the spec: `search("Paris")`
(outcome: the facility with id 1) is immediately superseded by
`search("Lyon")` (outcome: the facility with id 2), but the Paris network
responses arrive only after the Lyon invocation has completed.  The event
sequence on the page state is then: Paris starts, Lyon starts, Lyon delivers,
Paris delivers.  Because `deliverOutcome` is unconditional (no cancellation
exists anywhere in `handleSearch`), the superseded Paris invocation delivers
last and its facilities are the final delivered state — the prior
invocation's result is delivered to the caller, contradicting the claim that
only the most recent invocation's outcome is ever delivered. -/
theorem stale_search_result_delivered :
    (deliverOutcome
        (deliverOutcome (startSearch (startSearch ⟨[], none⟩))
          (.success [⟨2, 45, 4, []⟩]))
        (.success [⟨1, 48, 2, []⟩])).places = [⟨1, 48, 2, []⟩] ∧
    ([⟨1, 48, 2, []⟩] : List Place) ≠ [⟨2, 45, 4, []⟩] := by
  decide

end HospitalFinder
